import Mathlib

/-!
# vibeflix: the search controller of `src/App.jsx`

A shallow embedding of the `App` component's state and of the operations that
change it: `fetchMovies`, the effect keyed on `debouncedSearchTerm`, the
"Load More" click handler and the debounce of the raw search input.

React state is an explicit record (`State`); one call of the asynchronous
`fetchMovies` is a function on that record which is given the outcome of the
HTTP request and the outcome of `updateSearchCount` (both belong to the
outside world).  A fetch is run to completion before the next event is handled.
The body of an OK response is taken to have the shape
`{ results, page, total_pages }` that the component reads.
-/

namespace Vibeflix

/-! ## Data model -/

/-- A movie as returned by the catalogue; the component reads `movie.id`. -/
structure Movie where
  id : Nat
  title : String
deriving DecidableEq, Repr

/-- The JSON body of an OK response: `data.results`, `data.page`, `data.total_pages`. -/
structure Data where
  results : List Movie
  page : Int
  total_pages : Int
deriving DecidableEq, Repr

/-- What `await fetch(endpoint, API_OPTIONS)` produced. -/
inductive FetchOutcome where
  /-- The request itself threw (network failure). -/
  | threw
  /-- A response arrived with `response.ok` false. -/
  | notOk
  /-- A response arrived with `response.ok` true and this body. -/
  | ok (data : Data)
deriving DecidableEq, Repr

/-- What `await updateSearchCount(query, movie)` did; the function lives in
`./appwrite`, outside the component, so its outcome is an input. -/
inductive UpdateOutcome where
  | resolved
  | threw
deriving DecidableEq, Repr

/-- The URL built at the top of the `try` block, kept structured. -/
inductive Endpoint where
  /-- The search URL `/search/movie?query=<query>&page=<page>`. -/
  | search (query : String) (page : Nat)
  /-- The popular-movies URL `/discover/movie?sort_by=popularity.desc&page=<page>`. -/
  | discover (page : Nat)
deriving DecidableEq, Repr

/-- One HTTP request issued by `fetchMovies`, with the arguments of the call
that issued it and the outcome it got. -/
structure FetchRecord where
  query : String
  page : Nat
  isLoadMore : Bool
  endpoint : Endpoint
  response : FetchOutcome
deriving DecidableEq, Repr

/-- The `useState` cells of `App` that the search controller touches, the
pending debounce timer, and two logs of the calls made to the outside world:
`fetchLog` (the HTTP requests, oldest first) and `searchCountCalls` (the
arguments of every `updateSearchCount` call, oldest first).
`errorMessage` is `none` for JavaScript `null`. -/
structure State where
  debouncedSearchTerm : String
  searchTerm : String
  movieList : List Movie
  errorMessage : Option String
  currentPage : Nat
  hasMorePages : Bool
  isLoadingInitial : Bool
  isLoadingMore : Bool
  debounceTimer : Option Nat
  fetchLog : List FetchRecord
  searchCountCalls : List (String × Option Movie)
deriving DecidableEq, Repr

/-- The initial values of the `useState` cells. -/
def init : State :=
  { debouncedSearchTerm := ""
    searchTerm := ""
    movieList := []
    errorMessage := none
    currentPage := 1
    hasMorePages := true
    isLoadingInitial := false
    isLoadingMore := false
    debounceTimer := none
    fetchLog := []
    searchCountCalls := [] }

/-! ## `fetchMovies` -/

/-- The message set in the `catch` block. -/
def genericError : String := "Error fetching movies. Please try again later."

/-- The ternary on `query` that chooses the URL. -/
def endpoint (query : String) (page : Nat) : Endpoint :=
  if query ≠ "" then Endpoint.search query page else Endpoint.discover page

/-- The `try` block of `fetchMovies`.  Returns the state reached and whether an
exception left the block (`true`) or the block ended normally or by `return`
(`false`).  State updates made before a throw are kept. -/
def fetchTry (query : String) (page : Nat) (isLoadMore : Bool)
    (resp : FetchOutcome) (upd : UpdateOutcome) (s : State) : State × Bool :=
  let s1 := { s with
    fetchLog := s.fetchLog ++ [⟨query, page, isLoadMore, endpoint query page, resp⟩] }
  match resp with
  | .threw => (s1, true)
  | .notOk => (s1, true)
  | .ok data =>
    if data.results.length = 0 then
      ({ s1 with hasMorePages := false }, false)
    else
      let s2 := { s1 with
        movieList := if isLoadMore then s1.movieList ++ data.results else data.results }
      if query ≠ "" ∧ data.results.length > 0 ∧ page = 1 then
        let s3 := { s2 with
          searchCountCalls := s2.searchCountCalls ++ [(query, data.results[0]?)] }
        match upd with
        | .threw => (s3, true)
        | .resolved => ({ s3 with hasMorePages := decide (data.page < data.total_pages) }, false)
      else
        ({ s2 with hasMorePages := decide (data.page < data.total_pages) }, false)

/-- One call `fetchMovies(query, page, isLoadMore)` run to completion. -/
def fetchMovies (query : String) (page : Nat) (isLoadMore : Bool)
    (resp : FetchOutcome) (upd : UpdateOutcome) (s : State) : State :=
  let s1 := if isLoadMore then { s with isLoadingMore := true }
            else { s with isLoadingInitial := true }
  let s2 := { s1 with errorMessage := some "" }
  let r := fetchTry query page isLoadMore resp upd s2
  -- catch
  let s3 := if r.2 then { r.1 with errorMessage := some genericError } else r.1
  -- finally
  if isLoadMore then { s3 with isLoadingMore := false }
  else { s3 with isLoadingInitial := false }

/-! ## The controller -/

/-- JavaScript truthiness of `errorMessage`. -/
def errorShown (s : State) : Bool :=
  match s.errorMessage with
  | none => false
  | some e => e ≠ ""

/-- The JSX condition under which the "Load More" button is rendered. -/
def loadMoreVisible (s : State) : Bool :=
  !s.isLoadingInitial && !errorShown s && (s.hasMorePages && !s.isLoadingMore)

/-- The effect with dependency `[debouncedSearchTerm]`. -/
def searchEffect (resp : FetchOutcome) (upd : UpdateOutcome) (s : State) : State :=
  fetchMovies s.debouncedSearchTerm 1 false resp upd
    { s with currentPage := 1, hasMorePages := true }

/-- The `onClick` handler of the "Load More" button. -/
def loadMoreClick (resp : FetchOutcome) (upd : UpdateOutcome) (s : State) : State :=
  let nextPage := s.currentPage + 1
  fetchMovies s.debouncedSearchTerm nextPage true resp upd { s with currentPage := nextPage }

/-- The delay given to the hook in `useDebounce(..., 500, [searchTerm])`, in
milliseconds. -/
def debounceDelay : Nat := 500

/-- The state after the component has mounted: the debounce timer is armed and
the search effect has run once for the initial (empty) debounced term. -/
def mount (resp : FetchOutcome) (upd : UpdateOutcome) : State :=
  searchEffect resp upd { init with debounceTimer := some debounceDelay }

/-- Events of the controller, each with the outcomes the outside world gives
to the fetch it starts. -/
inductive Event where
  /-- `setDebouncedSearchTerm(q)` with `q` different from the current value. -/
  | debouncedChange (q : String) (resp : FetchOutcome) (upd : UpdateOutcome)
  /-- A click on the "Load More" button. -/
  | loadMore (resp : FetchOutcome) (upd : UpdateOutcome)
deriving DecidableEq, Repr

/-- One event.  `none` when the event cannot happen in `s`: setting the
debounced term to its current value changes nothing and re-runs no effect, and
a button that is not rendered cannot be clicked. -/
def step (s : State) : Event → Option State
  | .debouncedChange q resp upd =>
    if q = s.debouncedSearchTerm then none
    else some (searchEffect resp upd { s with debouncedSearchTerm := q })
  | .loadMore resp upd =>
    if loadMoreVisible s then some (loadMoreClick resp upd s) else none

/-- A sequence of events, each handled to completion before the next. -/
def run (s : State) : List Event → Option State
  | [] => some s
  | e :: es => (step s e).bind (fun t => run t es)

/-! ## The debounce of the raw search input

The hook `useDebounce` comes from the react-use package, whose code is not
among the sources.  Its timer is modelled from the contract the spec gives in
section 4.3: the raw input is mirrored into the debounced value after the quiet
period has passed with no further input change. -/

/-- Events of the debounce layer.  Time is counted in milliseconds. -/
inductive TimedEvent where
  /-- The search box changes: `setSearchTerm(v)` with `v` a new value. -/
  | input (v : String)
  /-- `ms` milliseconds pass without any input.  A timer that becomes due in
  that time fires; the outcomes are those of the fetch this may start. -/
  | elapse (ms : Nat) (resp : FetchOutcome) (upd : UpdateOutcome)
deriving DecidableEq, Repr

/-- Modelled from the spec: the timer of `useDebounce`, which is restarted with
the full quiet period whenever the dependency `searchTerm` changes.  `none`
when the value does not change (no change event) and when a timer is due at
this very moment (it fires before any further input is handled). -/
def typeInput (v : String) (s : State) : Option State :=
  if v = s.searchTerm ∨ s.debounceTimer = some 0 then none
  else some { s with searchTerm := v, debounceTimer := some debounceDelay }

/-- Modelled from the spec: the firing of the timer of `useDebounce`, which runs
the callback `() => setDebouncedSearchTerm(searchTerm)` of the component.  When
the value is the one `debouncedSearchTerm` already has, no state changes and the
search effect does not run. -/
def debounceFire (resp : FetchOutcome) (upd : UpdateOutcome) (s : State) : State :=
  let s1 := { s with debounceTimer := none }
  match step s1 (.debouncedChange s1.searchTerm resp upd) with
  | some t => t
  | none => s1

/-- Modelled from the spec: time passing for the timer of `useDebounce`.  A
pending timer fires as soon as the time left on it has passed, so after the
full quiet period and not before. -/
def elapse (ms : Nat) (resp : FetchOutcome) (upd : UpdateOutcome) (s : State) : State :=
  match s.debounceTimer with
  | none => s
  | some left =>
    if left ≤ ms then debounceFire resp upd s
    else { s with debounceTimer := some (left - ms) }

/-- One event of the debounce layer. -/
def timedStep (s : State) : TimedEvent → Option State
  | .input v => typeInput v s
  | .elapse ms resp upd => some (elapse ms resp upd s)

/-- A sequence of events of the debounce layer. -/
def runTimed (s : State) : List TimedEvent → Option State
  | [] => some s
  | e :: es => (timedStep s e).bind (fun t => runTimed t es)

/-- A further input change of a burst: the time since the previous change, the
outcomes the outside world would give to a fetch started in that time, and the
new value. -/
structure Keystroke where
  gap : Nat
  resp : FetchOutcome
  upd : UpdateOutcome
  value : String
deriving DecidableEq, Repr

/-- A burst of input changes: a first value, then further values each after a
gap in milliseconds. -/
def burst (v0 : String) (ks : List Keystroke) : List TimedEvent :=
  .input v0 :: ks.flatMap (fun k => [.elapse k.gap k.resp k.upd, .input k.value])

/-- The last value typed in a burst. -/
def finalValue (v0 : String) (ks : List Keystroke) : String :=
  match ks.getLast? with
  | some k => k.value
  | none => v0

/-! ## Quantities the properties are stated with -/

/-- The results array of an OK response; a failed request carries none. -/
def okResults : FetchOutcome → List Movie
  | .ok data => data.results
  | _ => []

/-- What a request was: the arguments of the `fetchMovies` call behind it and
the URL that was fetched. -/
def FetchRecord.request (r : FetchRecord) : String × Nat × Bool × Endpoint :=
  (r.query, r.page, r.isLoadMore, r.endpoint)

/-- A request in non-load-more mode answered OK with a non-empty results array. -/
def FetchRecord.fresh (r : FetchRecord) : Bool :=
  !r.isLoadMore && !(okResults r.response).isEmpty

/-- The requests from the last `fresh` one on (all of them when there is none). -/
def sinceFresh : List FetchRecord → List FetchRecord
  | [] => []
  | r :: rs => if rs.any FetchRecord.fresh then sinceFresh rs else r :: rs

/-- The results of the OK responses from the last `fresh` request on, in order. -/
def shownPages (log : List FetchRecord) : List Movie :=
  (sinceFresh log).flatMap (fun r => okResults r.response)

/-- The requests from the last one in non-load-more mode on, that is, since the
search effect last ran (all of them when there is none). -/
def sinceSearch : List FetchRecord → List FetchRecord
  | [] => []
  | r :: rs => if rs.any (fun x => !x.isLoadMore) then sinceSearch rs else r :: rs

/-- The list the spec's invariant names: the results of all OK responses for
the current debounced query since the search effect last ran, in order. -/
def pagesOfCurrentQuery (s : State) : List Movie :=
  ((sinceSearch s.fetchLog).filter (fun r => r.query = s.debouncedSearchTerm)).flatMap
    (fun r => okResults r.response)

/-- The request for page `page` of `q`: the search URL with that query and page
when `q` is non-empty, the popular-movies URL with that page when it is empty. -/
def pageRequest (q : String) (page : Nat) (isLoadMore : Bool) :
    String × Nat × Bool × Endpoint :=
  (q, page, isLoadMore, if q = "" then Endpoint.discover page else Endpoint.search q page)

/-- The requests a query change followed by `n` load-more clicks should make:
pages `1, 2, ..., n + 1` of `q`, the first in non-load-more mode. -/
def pageRequests (q : String) (n : Nat) : List (String × Nat × Bool × Endpoint) :=
  pageRequest q 1 false :: (List.range n).map (fun k => pageRequest q (k + 2) true)

/-- What the controller maintains: the movie list is the concatenation of the
results of the OK responses since the last fresh request, and every request
since the search effect last ran is for the current debounced term. -/
def Coherent (s : State) : Prop :=
  s.movieList = shownPages s.fetchLog
  ∧ ∀ x ∈ sinceSearch s.fetchLog, x.query = s.debouncedSearchTerm

/-- Two sample movies used in the concrete evaluations. -/
def movieA : Movie := ⟨1, "Batman"⟩

def movieB : Movie := ⟨2, "Batman Returns"⟩

/-- A sample run: the component mounts, the debounced query becomes "batman"
and its first page of three arrives. -/
def sampleSearch : State :=
  searchEffect (.ok ⟨[movieA], 1, 3⟩) .resolved
    { mount (.ok ⟨[], 1, 0⟩) .resolved with debouncedSearchTerm := "batman" }

/-- The sample run continued by one click on "Load More". -/
def sampleTwoPages : State :=
  loadMoreClick (.ok ⟨[movieB], 2, 3⟩) .resolved sampleSearch

/-- The sample run continued by a second click on "Load More". -/
def sampleThreePages : State :=
  loadMoreClick (.ok ⟨[movieA], 3, 3⟩) .resolved sampleTwoPages

/-! ## `fetchMovies`: one call -/

/-- C1, as stated, fails: an OK page-1 response with an empty results array
leaves a non-empty movie list in place instead of replacing it. -/
theorem fetchMovies_page1_empty_keeps_list :
    (fetchMovies "batman" 1 false (.ok ⟨[], 1, 1⟩) .resolved
        { init with movieList := [movieA] }).movieList = [movieA]
    ∧ (fetchMovies "batman" 1 false (.ok ⟨[], 1, 1⟩) .resolved
        { init with movieList := [movieA] }).movieList ≠ (Data.mk [] 1 1).results := by
  decide

/-- C1 (amended): for every query and every OK page-1 response with a non-empty
results array, `fetchMovies(query, 1, false)` leaves the movie list equal to
those results whatever it held before, and a following
`fetchMovies(query, 2, true)` with an OK response leaves it equal to the page-1
results followed by the page-2 results. -/
theorem fetchMovies_page1_then_page2 (query : String) (d1 d2 : Data)
    (u1 u2 : UpdateOutcome) (s : State) (h1 : d1.results ≠ []) :
    (fetchMovies query 1 false (.ok d1) u1 s).movieList = d1.results
    ∧ (fetchMovies query 2 true (.ok d2) u2
        (fetchMovies query 1 false (.ok d1) u1 s)).movieList = d1.results ++ d2.results := by
  have hlen : d1.results.length ≠ 0 := by
    intro h; exact h1 (List.length_eq_zero.mp h)
  constructor
  · cases u1 <;> simp [fetchMovies, fetchTry, hlen] <;> split <;> simp
  · by_cases h2 : d2.results = []
    · cases u1 <;> simp [fetchMovies, fetchTry, hlen, h2] <;> split <;> simp
    · have hlen2 : d2.results.length ≠ 0 := by
        intro h; exact h2 (List.length_eq_zero.mp h)
      cases u1 <;> simp [fetchMovies, fetchTry, hlen, hlen2] <;> split <;> simp

/-- C1 (amended), at a concrete input: two pages of one result each. -/
theorem fetchMovies_page1_then_page2_witness :
    (fetchMovies "batman" 1 false (.ok ⟨[movieA], 1, 2⟩) .resolved init).movieList = [movieA]
    ∧ (fetchMovies "batman" 2 true (.ok ⟨[movieB], 2, 2⟩) .resolved
        (fetchMovies "batman" 1 false (.ok ⟨[movieA], 1, 2⟩) .resolved init)).movieList
      = [movieA] ++ [movieB] :=
  fetchMovies_page1_then_page2 "batman" ⟨[movieA], 1, 2⟩ ⟨[movieB], 2, 2⟩
    .resolved .resolved init (by decide)

/-- C2: for every query, page and fetch mode, an OK response whose results array
is empty sets `hasMorePages` to false and leaves the movie list as it was. -/
theorem fetchMovies_empty_results (query : String) (page : Nat) (isLoadMore : Bool)
    (d : Data) (upd : UpdateOutcome) (s : State) (h : d.results = []) :
    (fetchMovies query page isLoadMore (.ok d) upd s).hasMorePages = false
    ∧ (fetchMovies query page isLoadMore (.ok d) upd s).movieList = s.movieList := by
  cases isLoadMore <;> simp [fetchMovies, fetchTry, h]

/-- C2, at a concrete input: page 3 in load-more mode comes back empty. -/
theorem fetchMovies_empty_results_witness :
    (fetchMovies "batman" 3 true (.ok ⟨[], 3, 9⟩) .resolved
        { init with movieList := [movieA, movieB] }).hasMorePages = false
    ∧ (fetchMovies "batman" 3 true (.ok ⟨[], 3, 9⟩) .resolved
        { init with movieList := [movieA, movieB] }).movieList
      = ({ init with movieList := [movieA, movieB] } : State).movieList :=
  fetchMovies_empty_results "batman" 3 true ⟨[], 3, 9⟩ .resolved
    { init with movieList := [movieA, movieB] } rfl

/-- C3, as stated, fails: an OK response with an empty results array, page 1 and
total_pages 5 leaves `hasMorePages` false although `1 < 5`. -/
theorem fetchMovies_hasMore_empty_results :
    (fetchMovies "batman" 1 false (.ok ⟨[], 1, 5⟩) .resolved init).hasMorePages = false
    ∧ (fetchMovies "batman" 1 false (.ok ⟨[], 1, 5⟩) .resolved init).hasMorePages
      ≠ decide ((Data.mk [] 1 5).page < (Data.mk [] 1 5).total_pages) := by
  decide

/-- C3 (amended): for every OK response with a non-empty results array, when the
record-search call is not made or does not throw, `hasMorePages` after the call
equals `response.page < response.total_pages`; for every OK response with an
empty results array it is false. -/
theorem fetchMovies_hasMorePages (query : String) (page : Nat) (isLoadMore : Bool)
    (d : Data) (upd : UpdateOutcome) (s : State) :
    (d.results ≠ [] → (upd = .resolved ∨ query = "" ∨ page ≠ 1) →
      (fetchMovies query page isLoadMore (.ok d) upd s).hasMorePages
        = decide (d.page < d.total_pages))
    ∧ (d.results = [] →
      (fetchMovies query page isLoadMore (.ok d) upd s).hasMorePages = false) := by
  constructor
  · intro h hu
    have hlen : d.results.length ≠ 0 := by
      intro h0; exact h (List.length_eq_zero.mp h0)
    have hpos : 0 < d.results.length := Nat.pos_of_ne_zero hlen
    rcases hu with hu | hu | hu
    · subst hu
      cases isLoadMore <;> simp [fetchMovies, fetchTry, hlen] <;> split <;> simp
    · subst hu
      cases isLoadMore <;> simp [fetchMovies, fetchTry, hlen]
    · cases isLoadMore <;> simp [fetchMovies, fetchTry, hlen, hu]
  · intro h
    cases isLoadMore <;> simp [fetchMovies, fetchTry, h]

/-- C3 (amended), at a concrete input: page 2 of 5 with one result, and an
empty page. -/
theorem fetchMovies_hasMorePages_witness :
    (fetchMovies "batman" 2 true (.ok ⟨[movieB], 2, 5⟩) .threw init).hasMorePages
        = decide ((2 : Int) < 5)
    ∧ (fetchMovies "batman" 2 true (.ok ⟨[], 2, 5⟩) .threw init).hasMorePages = false :=
  ⟨(fetchMovies_hasMorePages "batman" 2 true ⟨[movieB], 2, 5⟩ .threw init).1
      (by decide) (Or.inr (Or.inr (by decide))),
   (fetchMovies_hasMorePages "batman" 2 true ⟨[], 2, 5⟩ .threw init).2 rfl⟩

/-- C4: one call of `fetchMovies(query, page, isLoadMore)` invokes
`updateSearchCount` exactly once, with `(query, results[0])`, when the query is
non-empty, the page is 1 and the OK response has a non-empty results array; it
invokes it zero times when the page is not 1 (in particular greater than 1), or
the query is empty, or the results array is empty, or the fetch fails. -/
theorem fetchMovies_searchCount_calls (query : String) (page : Nat) (isLoadMore : Bool)
    (resp : FetchOutcome) (upd : UpdateOutcome) (s : State) :
    (∀ (d : Data) (m : Movie) (rest : List Movie),
      query ≠ "" → page = 1 → resp = .ok d → d.results = m :: rest →
      (fetchMovies query page isLoadMore resp upd s).searchCountCalls
        = s.searchCountCalls ++ [(query, some m)])
    ∧ ((page ≠ 1 ∨ query = "" ∨ resp = .threw ∨ resp = .notOk
          ∨ ∃ d, resp = .ok d ∧ d.results = []) →
      (fetchMovies query page isLoadMore resp upd s).searchCountCalls
        = s.searchCountCalls) := by
  constructor
  · intro d m rest hq hp hr hd
    subst hp hr
    cases isLoadMore <;> cases upd <;> simp [fetchMovies, fetchTry, hd, hq]
  · intro h
    rcases h with h | h | h | h | ⟨d, h, hd⟩
    · cases resp with
      | threw => cases isLoadMore <;> simp [fetchMovies, fetchTry]
      | notOk => cases isLoadMore <;> simp [fetchMovies, fetchTry]
      | ok d =>
        cases isLoadMore <;> simp [fetchMovies, fetchTry, h] <;> split <;> simp
    · subst h
      cases resp with
      | threw => cases isLoadMore <;> simp [fetchMovies, fetchTry]
      | notOk => cases isLoadMore <;> simp [fetchMovies, fetchTry]
      | ok d =>
        cases isLoadMore <;> simp [fetchMovies, fetchTry] <;> split <;> simp
    · subst h
      cases isLoadMore <;> simp [fetchMovies, fetchTry]
    · subst h
      cases isLoadMore <;> simp [fetchMovies, fetchTry]
    · subst h
      cases isLoadMore <;> simp [fetchMovies, fetchTry, hd]

/-- C4, at a concrete input: the spec's "batman" scenario records the top result
once, and page 2 of the same query records nothing. -/
theorem fetchMovies_searchCount_calls_witness :
    (fetchMovies "batman" 1 false (.ok ⟨[movieA, movieB], 1, 5⟩) .resolved init).searchCountCalls
        = init.searchCountCalls ++ [("batman", some movieA)]
    ∧ (fetchMovies "batman" 2 true (.ok ⟨[movieB], 2, 5⟩) .resolved init).searchCountCalls
        = init.searchCountCalls :=
  ⟨(fetchMovies_searchCount_calls "batman" 1 false (.ok ⟨[movieA, movieB], 1, 5⟩)
      .resolved init).1 ⟨[movieA, movieB], 1, 5⟩ movieA [movieB] (by decide) rfl rfl rfl,
   (fetchMovies_searchCount_calls "batman" 2 true (.ok ⟨[movieB], 2, 5⟩)
      .resolved init).2 (Or.inl (by decide))⟩

/-- C5: for every query, page and fetch mode, when the request throws or the
response is not OK, `fetchMovies` ends with the movie list unchanged,
`errorMessage` equal to the fixed generic string, the loading flag of the active
mode false, and `hasMorePages` and the record-search calls untouched. -/
theorem fetchMovies_failure (query : String) (page : Nat) (isLoadMore : Bool)
    (resp : FetchOutcome) (upd : UpdateOutcome) (s : State)
    (h : resp = .threw ∨ resp = .notOk) :
    (fetchMovies query page isLoadMore resp upd s).movieList = s.movieList
    ∧ (fetchMovies query page isLoadMore resp upd s).errorMessage
        = some "Error fetching movies. Please try again later."
    ∧ (if isLoadMore then (fetchMovies query page isLoadMore resp upd s).isLoadingMore
        else (fetchMovies query page isLoadMore resp upd s).isLoadingInitial) = false
    ∧ (fetchMovies query page isLoadMore resp upd s).hasMorePages = s.hasMorePages
    ∧ (fetchMovies query page isLoadMore resp upd s).searchCountCalls
        = s.searchCountCalls := by
  rcases h with h | h <;> subst h <;>
    cases isLoadMore <;> simp [fetchMovies, fetchTry, genericError]

/-- C5, at a concrete input: a non-OK response to a load-more fetch of page 2. -/
theorem fetchMovies_failure_witness :
    (fetchMovies "batman" 2 true .notOk .resolved
        { init with movieList := [movieA] }).movieList
        = ({ init with movieList := [movieA] } : State).movieList
    ∧ (fetchMovies "batman" 2 true .notOk .resolved
        { init with movieList := [movieA] }).errorMessage
        = some "Error fetching movies. Please try again later."
    ∧ (if true then (fetchMovies "batman" 2 true .notOk .resolved
          { init with movieList := [movieA] }).isLoadingMore
        else (fetchMovies "batman" 2 true .notOk .resolved
          { init with movieList := [movieA] }).isLoadingInitial) = false
    ∧ (fetchMovies "batman" 2 true .notOk .resolved
        { init with movieList := [movieA] }).hasMorePages
        = ({ init with movieList := [movieA] } : State).hasMorePages
    ∧ (fetchMovies "batman" 2 true .notOk .resolved
        { init with movieList := [movieA] }).searchCountCalls
        = ({ init with movieList := [movieA] } : State).searchCountCalls :=
  fetchMovies_failure "batman" 2 true .notOk .resolved
    { init with movieList := [movieA] } (Or.inr rfl)

/-- C8: on every exit path of `fetchMovies` (every response and every outcome of
the record-search call) the loading flag of the active mode is false on
completion, `isLoadingMore` when `isLoadMore` is true and `isLoadingInitial`
otherwise, and the loading flag of the other mode keeps the value it had. -/
theorem fetchMovies_loading_flags (query : String) (page : Nat) (isLoadMore : Bool)
    (resp : FetchOutcome) (upd : UpdateOutcome) (s : State) :
    (fetchMovies query page isLoadMore resp upd s).isLoadingMore
        = (if isLoadMore then false else s.isLoadingMore)
    ∧ (fetchMovies query page isLoadMore resp upd s).isLoadingInitial
        = (if isLoadMore then s.isLoadingInitial else false) := by
  cases resp with
  | threw => cases isLoadMore <;> simp [fetchMovies, fetchTry]
  | notOk => cases isLoadMore <;> simp [fetchMovies, fetchTry]
  | ok d =>
    by_cases h0 : d.results.length = 0
    · cases isLoadMore <;> simp [fetchMovies, fetchTry, h0]
    · by_cases hc : query ≠ "" ∧ d.results.length > 0 ∧ page = 1
      · cases isLoadMore <;> cases upd <;> simp [fetchMovies, fetchTry, h0, hc]
      · cases isLoadMore <;> simp only [fetchMovies, fetchTry, h0, hc, if_false] <;> simp

/-- C10: for every non-empty query whose page-1 request returns an OK response
with a non-empty results array, if `updateSearchCount` throws then
`fetchMovies(query, 1, false)` ends with the movie list replaced by the
response's results, `errorMessage` set to the generic error string, and
`hasMorePages` left at the value it had before the call. -/
theorem fetchMovies_update_throws (query : String) (d : Data) (s : State)
    (hq : query ≠ "") (hd : d.results ≠ []) :
    (fetchMovies query 1 false (.ok d) .threw s).movieList = d.results
    ∧ (fetchMovies query 1 false (.ok d) .threw s).errorMessage
        = some "Error fetching movies. Please try again later."
    ∧ (fetchMovies query 1 false (.ok d) .threw s).hasMorePages = s.hasMorePages := by
  have hlen : d.results.length ≠ 0 := by
    intro h0; exact hd (List.length_eq_zero.mp h0)
  have hpos : 0 < d.results.length := Nat.pos_of_ne_zero hlen
  simp [fetchMovies, fetchTry, hlen, hpos, hq, genericError]

/-- C10, at a concrete input: `hasMorePages` was false and stays false although
the response says page 1 of 5. -/
theorem fetchMovies_update_throws_witness :
    (fetchMovies "batman" 1 false (.ok ⟨[movieA], 1, 5⟩) .threw
        { init with hasMorePages := false }).movieList = (Data.mk [movieA] 1 5).results
    ∧ (fetchMovies "batman" 1 false (.ok ⟨[movieA], 1, 5⟩) .threw
        { init with hasMorePages := false }).errorMessage
        = some "Error fetching movies. Please try again later."
    ∧ (fetchMovies "batman" 1 false (.ok ⟨[movieA], 1, 5⟩) .threw
        { init with hasMorePages := false }).hasMorePages
        = ({ init with hasMorePages := false } : State).hasMorePages :=
  fetchMovies_update_throws "batman" ⟨[movieA], 1, 5⟩ { init with hasMorePages := false }
    (by decide) (by decide)

/-! ## Facts about one call used by the controller proofs -/

/-- A call of `fetchMovies` does not write the search terms, the page counter or
the debounce timer. -/
theorem fetchMovies_frame (query : String) (page : Nat) (isLoadMore : Bool)
    (resp : FetchOutcome) (upd : UpdateOutcome) (s : State) :
    (fetchMovies query page isLoadMore resp upd s).debouncedSearchTerm = s.debouncedSearchTerm
    ∧ (fetchMovies query page isLoadMore resp upd s).searchTerm = s.searchTerm
    ∧ (fetchMovies query page isLoadMore resp upd s).currentPage = s.currentPage
    ∧ (fetchMovies query page isLoadMore resp upd s).debounceTimer = s.debounceTimer := by
  cases resp with
  | threw => cases isLoadMore <;> simp [fetchMovies, fetchTry]
  | notOk => cases isLoadMore <;> simp [fetchMovies, fetchTry]
  | ok d =>
    by_cases h0 : d.results.length = 0
    · cases isLoadMore <;> simp [fetchMovies, fetchTry, h0]
    · by_cases hc : query ≠ "" ∧ d.results.length > 0 ∧ page = 1
      · cases isLoadMore <;> cases upd <;> simp [fetchMovies, fetchTry, h0, hc]
      · cases isLoadMore <;> simp only [fetchMovies, fetchTry, h0, hc, if_false] <;> simp

/-- A call of `fetchMovies` issues exactly one request. -/
theorem fetchMovies_fetchLog (query : String) (page : Nat) (isLoadMore : Bool)
    (resp : FetchOutcome) (upd : UpdateOutcome) (s : State) :
    (fetchMovies query page isLoadMore resp upd s).fetchLog
      = s.fetchLog ++ [⟨query, page, isLoadMore, endpoint query page, resp⟩] := by
  cases resp with
  | threw => cases isLoadMore <;> simp [fetchMovies, fetchTry]
  | notOk => cases isLoadMore <;> simp [fetchMovies, fetchTry]
  | ok d =>
    by_cases h0 : d.results.length = 0
    · cases isLoadMore <;> simp [fetchMovies, fetchTry, h0]
    · by_cases hc : query ≠ "" ∧ d.results.length > 0 ∧ page = 1
      · cases isLoadMore <;> cases upd <;> simp [fetchMovies, fetchTry, h0, hc]
      · cases isLoadMore <;> simp only [fetchMovies, fetchTry, h0, hc, if_false] <;> simp

/-- The movie list after a call: appended to in load-more mode, replaced in the
other mode unless the response carries no results. -/
theorem fetchMovies_movieList (query : String) (page : Nat) (isLoadMore : Bool)
    (resp : FetchOutcome) (upd : UpdateOutcome) (s : State) :
    (fetchMovies query page isLoadMore resp upd s).movieList
      = if isLoadMore then s.movieList ++ okResults resp
        else if (okResults resp).isEmpty then s.movieList else okResults resp := by
  cases resp with
  | threw => cases isLoadMore <;> simp [fetchMovies, fetchTry, okResults]
  | notOk => cases isLoadMore <;> simp [fetchMovies, fetchTry, okResults]
  | ok d =>
    by_cases h0 : d.results.length = 0
    · have h1 : d.results = [] := List.length_eq_zero.mp h0
      cases isLoadMore <;> simp [fetchMovies, fetchTry, h0, okResults, h1]
    · have h1 : d.results ≠ [] := fun h => h0 (List.length_eq_zero.mpr h)
      by_cases hc : query ≠ "" ∧ d.results.length > 0 ∧ page = 1
      · cases isLoadMore <;> cases upd <;>
          simp [fetchMovies, fetchTry, h0, hc, okResults, h1]
      · cases isLoadMore <;> simp only [fetchMovies, fetchTry, h0, hc, if_false] <;>
          simp [okResults, h1]

/-! ## The movie list as a function of the request log -/

theorem sinceFresh_cons (a : FetchRecord) (l : List FetchRecord) :
    sinceFresh (a :: l) = if l.any FetchRecord.fresh then sinceFresh l else a :: l := rfl

theorem sinceSearch_cons (a : FetchRecord) (l : List FetchRecord) :
    sinceSearch (a :: l)
      = if l.any (fun x => !x.isLoadMore) then sinceSearch l else a :: l := rfl

theorem sinceFresh_append (log : List FetchRecord) (r : FetchRecord) :
    sinceFresh (log ++ [r]) = if r.fresh then [r] else sinceFresh log ++ [r] := by
  induction log with
  | nil => by_cases hr : r.fresh <;> simp [sinceFresh, hr]
  | cons a l ih =>
    rw [List.cons_append, sinceFresh_cons, sinceFresh_cons, ih, List.any_append]
    by_cases hr : r.fresh = true
    · simp [hr]
    · by_cases hl : l.any FetchRecord.fresh = true
      · simp [hr, hl]
      · simp [hr, hl]

theorem sinceSearch_append (log : List FetchRecord) (r : FetchRecord) :
    sinceSearch (log ++ [r]) = if r.isLoadMore then sinceSearch log ++ [r] else [r] := by
  induction log with
  | nil => by_cases hr : r.isLoadMore <;> simp [sinceSearch, hr]
  | cons a l ih =>
    rw [List.cons_append, sinceSearch_cons, sinceSearch_cons, ih, List.any_append]
    by_cases hr : r.isLoadMore = true
    · by_cases hl : l.any (fun x => !x.isLoadMore) = true
      · simp [hr, hl]
      · simp [hr, hl]
    · simp [hr]

theorem shownPages_append (log : List FetchRecord) (r : FetchRecord) :
    shownPages (log ++ [r])
      = if r.fresh then okResults r.response else shownPages log ++ okResults r.response := by
  unfold shownPages
  rw [sinceFresh_append]
  by_cases hr : r.fresh = true <;> simp [hr]

/-- When the request that opened the current search was answered OK with a
non-empty results array, the requests since the last fresh one are exactly the
requests since that search. -/
theorem sinceFresh_eq_sinceSearch (log : List FetchRecord)
    (h : ∃ r, (sinceSearch log).head? = some r ∧ r.fresh = true) :
    sinceFresh log = sinceSearch log := by
  induction log using List.reverseRecOn with
  | nil => rfl
  | append_singleton l r ih =>
    obtain ⟨x, hx, hfx⟩ := h
    rw [sinceSearch_append] at hx
    rw [sinceSearch_append, sinceFresh_append]
    by_cases hr : r.isLoadMore = true
    · have hnf : r.fresh = false := by simp [FetchRecord.fresh, hr]
      simp only [hr, if_true] at hx
      simp only [hr, if_true, hnf]
      cases hs : sinceSearch l with
      | nil =>
        rw [hs] at hx
        simp at hx
        subst hx
        rw [hnf] at hfx
        cases hfx
      | cons a t =>
        rw [hs] at hx
        simp at hx
        subst hx
        have := ih ⟨a, by rw [hs]; rfl, hfx⟩
        rw [this, hs]
        simp
    · simp only [hr] at hx
      simp at hx
      subst hx
      simp [hr, hfx]

/-! ## The controller: reachable states -/

theorem fetchMovies_shown (query : String) (page : Nat) (isLoadMore : Bool)
    (resp : FetchOutcome) (upd : UpdateOutcome) (s : State)
    (h : s.movieList = shownPages s.fetchLog) :
    (fetchMovies query page isLoadMore resp upd s).movieList
      = shownPages (fetchMovies query page isLoadMore resp upd s).fetchLog := by
  rw [fetchMovies_movieList, fetchMovies_fetchLog, shownPages_append, ← h]
  cases isLoadMore with
  | true => simp [FetchRecord.fresh]
  | false =>
    by_cases he : (okResults resp).isEmpty = true
    · have : okResults resp = [] := by simpa using he
      simp [FetchRecord.fresh, this]
    · simp [FetchRecord.fresh, he]

theorem searchEffect_coherent (resp : FetchOutcome) (upd : UpdateOutcome) (s : State)
    (h : s.movieList = shownPages s.fetchLog) : Coherent (searchEffect resp upd s) := by
  constructor
  · exact fetchMovies_shown _ _ _ _ _ _ h
  · intro x hx
    simp only [searchEffect, fetchMovies_fetchLog, sinceSearch_append] at hx
    simp at hx
    subst hx
    simp [searchEffect, (fetchMovies_frame _ _ _ _ _ _).1]

theorem loadMoreClick_coherent (resp : FetchOutcome) (upd : UpdateOutcome) (s : State)
    (h : Coherent s) : Coherent (loadMoreClick resp upd s) := by
  constructor
  · exact fetchMovies_shown _ _ _ _ _ _ h.1
  · intro x hx
    simp only [loadMoreClick, fetchMovies_fetchLog, sinceSearch_append] at hx
    simp at hx
    rcases hx with hx | hx
    · simpa [loadMoreClick, (fetchMovies_frame _ _ _ _ _ _).1] using h.2 x hx
    · subst hx
      simp [loadMoreClick, (fetchMovies_frame _ _ _ _ _ _).1]

theorem mount_coherent (resp : FetchOutcome) (upd : UpdateOutcome) :
    Coherent (mount resp upd) :=
  searchEffect_coherent resp upd _ rfl

theorem step_coherent (s t : State) (e : Event) (h : Coherent s) (hs : step s e = some t) :
    Coherent t := by
  cases e with
  | debouncedChange q resp upd =>
    by_cases hq : q = s.debouncedSearchTerm
    · simp [step, hq] at hs
    · simp only [step, hq, if_false, Option.some.injEq] at hs
      subst hs
      exact searchEffect_coherent resp upd _ h.1
  | loadMore resp upd =>
    by_cases hv : loadMoreVisible s = true
    · simp only [step, hv, if_true, Option.some.injEq] at hs
      subst hs
      exact loadMoreClick_coherent resp upd s h
    · simp [step, hv] at hs

theorem run_coherent (evs : List Event) (s t : State) (h : Coherent s)
    (hr : run s evs = some t) : Coherent t := by
  induction evs generalizing s with
  | nil =>
    simp only [run, Option.some.injEq] at hr
    subst hr
    exact h
  | cons e es ih =>
    cases hs : step s e with
    | none => simp [run, hs] at hr
    | some m =>
      simp only [run, hs, Option.some_bind] at hr
      exact ih m (step_coherent s m e h hs) hr

/-- C6, as stated, fails: after a search for "batman" that returned one movie,
a change of the debounced query to "zzz" whose page-1 response is OK with an
empty results array leaves that movie in the list, although no page fetched
for "zzz" contains it. -/
theorem stale_list_after_empty_search :
    (run (mount (.ok ⟨[movieB], 1, 1⟩) .resolved)
      [.debouncedChange "batman" (.ok ⟨[movieA], 1, 1⟩) .resolved,
       .debouncedChange "zzz" (.ok ⟨[], 1, 0⟩) .resolved]).map
      (fun s => (s.debouncedSearchTerm, s.movieList, pagesOfCurrentQuery s))
    = some ("zzz", [movieA], []) := by
  decide

/-- C6 (amended): in every state reachable from the mounted component through
debounced-query changes and load-more clicks, the movie list equals the
concatenation, in server order, of the results of all OK responses since the
last non-load-more request answered OK with a non-empty results array; and
when the page-1 request of the current debounced query was so answered, the list
equals the concatenation of the results of all OK responses for that query. -/
theorem movieList_invariant (resp : FetchOutcome) (upd : UpdateOutcome)
    (evs : List Event) (s : State) (h : run (mount resp upd) evs = some s) :
    s.movieList = shownPages s.fetchLog
    ∧ ((∃ r, (sinceSearch s.fetchLog).head? = some r ∧ r.fresh = true) →
        s.movieList = pagesOfCurrentQuery s) := by
  have hc := run_coherent evs _ s (mount_coherent resp upd) h
  refine ⟨hc.1, fun hf => ?_⟩
  have hfilter : (sinceSearch s.fetchLog).filter
      (fun r => decide (r.query = s.debouncedSearchTerm)) = sinceSearch s.fetchLog := by
    rw [List.filter_eq_self]
    intro x hx
    simpa using hc.2 x hx
  rw [hc.1, pagesOfCurrentQuery, hfilter, shownPages, sinceFresh_eq_sinceSearch _ hf]

/-- C6 (amended), at a concrete run: a search for "batman" and one load-more. -/
theorem movieList_invariant_witness :
    sampleTwoPages.movieList = shownPages sampleTwoPages.fetchLog
    ∧ sampleTwoPages.movieList = pagesOfCurrentQuery sampleTwoPages :=
  have h := movieList_invariant (.ok ⟨[], 1, 0⟩) .resolved
    [.debouncedChange "batman" (.ok ⟨[movieA], 1, 3⟩) .resolved,
     .loadMore (.ok ⟨[movieB], 2, 3⟩) .resolved]
    sampleTwoPages (by decide)
  ⟨h.1, h.2 ⟨⟨"batman", 1, false, .search "batman" 1, .ok ⟨[movieA], 1, 3⟩⟩,
    by decide, by decide⟩⟩

/-! ## The controller: pages requested -/

theorem endpoint_eq (q : String) (page : Nat) :
    endpoint q page = if q = "" then Endpoint.discover page else Endpoint.search q page := by
  by_cases hq : q = "" <;> simp [endpoint, hq]

theorem run_loadMores (ls : List (FetchOutcome × UpdateOutcome)) (t u : State)
    (h : run t (ls.map (fun p => Event.loadMore p.1 p.2)) = some u) :
    u.fetchLog.map FetchRecord.request
      = t.fetchLog.map FetchRecord.request
        ++ (List.range ls.length).map
            (fun k => pageRequest t.debouncedSearchTerm (t.currentPage + 1 + k) true)
    ∧ u.currentPage = t.currentPage + ls.length
    ∧ u.debouncedSearchTerm = t.debouncedSearchTerm := by
  induction ls generalizing t with
  | nil =>
    simp only [List.map_nil, run, Option.some.injEq] at h
    subst h
    simp
  | cons p ps ih =>
    by_cases hv : loadMoreVisible t = true
    · simp only [List.map_cons, run, step, hv, if_true, Option.some_bind] at h
      obtain ⟨h1, h2, h3⟩ := ih _ h
      have hf := fetchMovies_frame t.debouncedSearchTerm (t.currentPage + 1) true p.1 p.2
        { t with currentPage := t.currentPage + 1 }
      have hd : (loadMoreClick p.1 p.2 t).debouncedSearchTerm = t.debouncedSearchTerm := hf.1
      have hp : (loadMoreClick p.1 p.2 t).currentPage = t.currentPage + 1 := hf.2.2.1
      have hl : (loadMoreClick p.1 p.2 t).fetchLog = t.fetchLog
          ++ [⟨t.debouncedSearchTerm, t.currentPage + 1, true,
                endpoint t.debouncedSearchTerm (t.currentPage + 1), p.1⟩] :=
        fetchMovies_fetchLog _ _ _ _ _ _
      refine ⟨?_, ?_, ?_⟩
      · rw [h1, hl, hd, hp, List.length_cons, List.range_succ_eq_map]
        simp only [List.map_append, List.map_cons, List.map_nil, List.map_map,
          List.append_assoc, List.singleton_append, FetchRecord.request, Nat.add_zero,
          endpoint_eq, pageRequest]
        congr 2
        apply List.map_congr_left
        intro k _
        simp only [Function.comp, Nat.succ_eq_add_one]
        have hk : t.currentPage + 1 + 1 + k = t.currentPage + 1 + (k + 1) := by omega
        rw [hk]
      · rw [h2, hp, List.length_cons]
        omega
      · rw [h3, hd]
    · simp [run, step, hv] at h

/-- After a failed request the search effect leaves `hasMorePages` at the value
it was reset to, and the "Load More" button is not rendered. -/
theorem searchEffect_failed (resp : FetchOutcome) (upd : UpdateOutcome) (s : State)
    (h : resp = .threw ∨ resp = .notOk) :
    (searchEffect resp upd s).hasMorePages = true
    ∧ loadMoreVisible (searchEffect resp upd s) = false := by
  rcases h with h | h <;> subst h <;>
    simp [searchEffect, fetchMovies, fetchTry, loadMoreVisible, errorShown, genericError]

/-- C7: a debounced-query change issues `fetchMovies(q, 1, false)` on a state in
which `currentPage` has been reset to 1 and `hasMorePages` to true (a value that
is still there after a failed request), and after it the k-th click on
"Load More" issues a load-more fetch of page k + 1 of that same query: when `n`
clicks follow the change, the requests made are, in this order, for the URLs of
pages `1, 2, ..., n + 1` of `q` (the search URL with query `q`, or the
popular-movies URL when `q` is empty), and `currentPage` ends at `n + 1`. -/
theorem pages_requested_in_sequence (s : State) (q : String) (resp : FetchOutcome)
    (upd : UpdateOutcome) (ls : List (FetchOutcome × UpdateOutcome)) (t : State)
    (h : run s (.debouncedChange q resp upd :: ls.map (fun p => Event.loadMore p.1 p.2))
          = some t) :
    step s (.debouncedChange q resp upd)
      = some (fetchMovies q 1 false resp upd
          { s with debouncedSearchTerm := q, currentPage := 1, hasMorePages := true })
    ∧ t.fetchLog.map FetchRecord.request
        = s.fetchLog.map FetchRecord.request ++ pageRequests q ls.length
    ∧ t.currentPage = ls.length + 1
    ∧ t.debouncedSearchTerm = q
    ∧ ((resp = .threw ∨ resp = .notOk) → t.hasMorePages = true) := by
  by_cases hq : q = s.debouncedSearchTerm
  · simp [run, step, hq] at h
  · simp only [run, step, hq, if_false, Option.some_bind] at h
    obtain ⟨h1, h2, h3⟩ := run_loadMores ls _ t h
    have hf := fetchMovies_frame q 1 false resp upd
      { s with debouncedSearchTerm := q, currentPage := 1, hasMorePages := true }
    have hd : (searchEffect resp upd { s with debouncedSearchTerm := q }).debouncedSearchTerm
        = q := hf.1
    have hp : (searchEffect resp upd { s with debouncedSearchTerm := q }).currentPage = 1 :=
      hf.2.2.1
    have hl : (searchEffect resp upd { s with debouncedSearchTerm := q }).fetchLog
        = s.fetchLog ++ [⟨q, 1, false, endpoint q 1, resp⟩] :=
      fetchMovies_fetchLog _ _ _ _ _ _
    refine ⟨?_, ?_, ?_, ?_, ?_⟩
    · simp [step, hq, searchEffect]
    · rw [h1, hl, hd, hp]
      simp only [pageRequests, pageRequest, List.map_append, List.map_cons, List.map_nil,
        FetchRecord.request, List.append_assoc, List.singleton_append, endpoint_eq]
      congr 2
      apply List.map_congr_left
      intro k _
      have hk : 1 + 1 + k = k + 2 := by omega
      rw [hk]
    · rw [h2, hp]; omega
    · rw [h3, hd]
    · intro hfail
      obtain ⟨hm, hv⟩ := searchEffect_failed resp upd { s with debouncedSearchTerm := q } hfail
      cases ls with
      | nil =>
        simp only [List.map_nil, run, Option.some.injEq] at h
        rw [← h]
        exact hm
      | cons p ps =>
        simp [run, step, hv] at h

/-- C7, at a concrete run: a change to "batman" followed by two clicks requests
the search URLs of pages 1, 2, 3 of "batman". -/
theorem pages_requested_in_sequence_witness :
    sampleThreePages.fetchLog.map FetchRecord.request
      = (mount (.ok ⟨[], 1, 0⟩) .resolved).fetchLog.map FetchRecord.request
        ++ [("batman", 1, false, Endpoint.search "batman" 1),
            ("batman", 2, true, Endpoint.search "batman" 2),
            ("batman", 3, true, Endpoint.search "batman" 3)]
    ∧ sampleThreePages.currentPage = 3 :=
  have h := pages_requested_in_sequence (mount (.ok ⟨[], 1, 0⟩) .resolved) "batman"
    (.ok ⟨[movieA], 1, 3⟩) .resolved
    [(.ok ⟨[movieB], 2, 3⟩, .resolved), (.ok ⟨[movieA], 3, 3⟩, .resolved)]
    sampleThreePages (by decide)
  ⟨h.2.1, h.2.2.1⟩

/-! ## The debounce -/

theorem runTimed_append (a b : List TimedEvent) (s : State) :
    runTimed s (a ++ b) = (runTimed s a).bind (fun t => runTimed t b) := by
  induction a generalizing s with
  | nil => simp [runTimed]
  | cons e es ih =>
    cases hs : timedStep s e with
    | none => simp [runTimed, hs]
    | some m => simp [runTimed, hs, ih]

theorem runTimed_cons (e : TimedEvent) (es : List TimedEvent) (s : State) :
    runTimed s (e :: es) = (timedStep s e).bind (fun t => runTimed t es) := rfl

theorem finalValue_cons (v0 : String) (k : Keystroke) (ks : List Keystroke) :
    finalValue v0 (k :: ks) = finalValue k.value ks := by
  cases ks with
  | nil => simp [finalValue]
  | cons j js =>
    simp only [finalValue, List.getLast?_cons_cons]
    cases hl : (j :: js).getLast? with
    | none => simp at hl
    | some x => rfl

theorem burst_cons (v0 : String) (k : Keystroke) (ks : List Keystroke) :
    burst v0 (k :: ks) = .input v0 :: .elapse k.gap k.resp k.upd :: burst k.value ks := by
  simp [burst]

/-- An accepted input moves the raw search term and arms the timer afresh. -/
theorem typeInput_some (v : String) (s t : State) (h : typeInput v s = some t) :
    t = { s with searchTerm := v, debounceTimer := some debounceDelay } := by
  by_cases hc : v = s.searchTerm ∨ s.debounceTimer = some 0
  · simp [typeInput, hc] at h
  · simp only [typeInput, hc, if_false, Option.some.injEq] at h
    exact h.symm

/-- A burst whose gaps are all shorter than the quiet period fires no timer: it
only moves the raw search term and leaves the timer freshly armed. -/
theorem runTimed_burst (ks : List Keystroke) (v0 : String) (s t : State)
    (hgap : ∀ k ∈ ks, k.gap < 500)
    (h : runTimed s (burst v0 ks) = some t) :
    t = { s with searchTerm := finalValue v0 ks, debounceTimer := some debounceDelay } := by
  induction ks generalizing s v0 with
  | nil =>
    simp only [burst, List.flatMap_nil, runTimed_cons] at h
    cases hi : typeInput v0 s with
    | none => simp [timedStep, hi] at h
    | some m =>
      simp only [timedStep, hi, Option.some_bind, runTimed, Option.some.injEq] at h
      rw [← h, typeInput_some v0 s m hi]
      simp [finalValue]
  | cons k ks ih =>
    rw [burst_cons, runTimed_cons] at h
    cases hi : typeInput v0 s with
    | none => simp [timedStep, hi] at h
    | some m =>
      have hm := typeInput_some v0 s m hi
      subst hm
      simp only [timedStep, hi, Option.some_bind] at h
      rw [runTimed_cons] at h
      have hk : ¬ debounceDelay ≤ k.gap := by
        have := hgap k (List.mem_cons_self k ks)
        simp only [debounceDelay]
        omega
      simp only [timedStep, elapse, hk, if_false, Option.some_bind] at h
      have := ih k.value _ (fun j hj => hgap j (List.mem_cons_of_mem k hj)) h
      rw [this, finalValue_cons]

/-- C9, as stated, fails: typing "b" and deleting it again 100 ms later leaves
the final input value equal to the debounced value, so when the timer fires
after the quiet period no fetch at all is triggered. -/
theorem debounce_no_fetch_when_value_returns :
    (runTimed (mount (.ok ⟨[movieA], 1, 1⟩) .resolved)
      (burst "b" [⟨100, .ok ⟨[movieB], 1, 1⟩, .resolved, ""⟩]
        ++ [.elapse 500 (.ok ⟨[movieB], 1, 1⟩) .resolved])).map
      (fun s => (s.searchTerm, s.debouncedSearchTerm, s.debounceTimer, s.fetchLog))
    = some ("", "", none, (mount (.ok ⟨[movieA], 1, 1⟩) .resolved).fetchLog) := by
  decide

/-- The quiet period is exact: when "ba" follows "b" by a full 500 ms, the timer
has fired in between and "b" has been fetched as well. -/
theorem debounce_full_gap_fetches_twice :
    (runTimed (mount (.ok ⟨[], 1, 0⟩) .resolved)
      (burst "b" [⟨500, .ok ⟨[movieA], 1, 1⟩, .resolved, "ba"⟩]
        ++ [.elapse 500 (.ok ⟨[movieB], 1, 1⟩) .resolved])).map
      (fun s => s.fetchLog.map FetchRecord.request)
    = some [("", 1, false, Endpoint.discover 1), ("b", 1, false, Endpoint.search "b" 1),
        ("ba", 1, false, Endpoint.search "ba" 1)] := by
  decide

/-- C9 (amended): after a burst of input changes in which each change follows
the previous one by less than the 500 ms quiet period, followed by at least
500 ms without input, the debounced value is the final input value, and the
requests issued since the burst began are exactly one, for the URL of page 1 of
the final value in non-load-more mode, when the final value differs from the
debounced value held before the burst, and none when it equals it; no request
is issued for an intermediate value. -/
theorem debounce_burst (s : State) (v0 : String) (ks : List Keystroke) (quiet : Nat)
    (resp : FetchOutcome) (upd : UpdateOutcome) (t : State)
    (hgap : ∀ k ∈ ks, k.gap < 500) (hquiet : 500 ≤ quiet)
    (h : runTimed s (burst v0 ks ++ [.elapse quiet resp upd]) = some t) :
    t.debouncedSearchTerm = finalValue v0 ks
    ∧ t.fetchLog = s.fetchLog ++
        (if finalValue v0 ks = s.debouncedSearchTerm then []
         else [⟨finalValue v0 ks, 1, false,
                if finalValue v0 ks = "" then Endpoint.discover 1
                else Endpoint.search (finalValue v0 ks) 1, resp⟩]) := by
  cases hb : runTimed s (burst v0 ks) with
  | none => simp [runTimed_append, hb] at h
  | some m =>
    have hm := runTimed_burst ks v0 s m hgap hb
    subst hm
    rw [runTimed_append, hb, Option.some_bind, runTimed_cons] at h
    have hq5 : debounceDelay ≤ quiet := by simp only [debounceDelay]; omega
    simp only [timedStep, elapse, hq5, if_true, Option.some_bind, runTimed,
      Option.some.injEq, debounceFire] at h
    by_cases hq : finalValue v0 ks = s.debouncedSearchTerm
    · simp only [step, hq, if_true] at h
      subst h
      simp [hq]
    · simp only [step, hq, if_false] at h
      subst h
      refine ⟨(fetchMovies_frame _ _ _ _ _ _).1, ?_⟩
      simp only [searchEffect, fetchMovies_fetchLog, hq, if_false, endpoint_eq]

/-- C9 (amended), at the spec's example: "b", "ba", "bat" typed 100 ms apart
trigger a single fetch, for "bat". -/
theorem debounce_burst_witness :
    (searchEffect (.ok ⟨[movieA], 1, 1⟩) .resolved
      { mount (.ok ⟨[], 1, 0⟩) .resolved with
        searchTerm := "bat", debouncedSearchTerm := "bat", debounceTimer := none }).fetchLog
    = (mount (.ok ⟨[], 1, 0⟩) .resolved).fetchLog
      ++ [⟨"bat", 1, false, .search "bat" 1, .ok ⟨[movieA], 1, 1⟩⟩] :=
  (debounce_burst (mount (.ok ⟨[], 1, 0⟩) .resolved) "b"
    [⟨100, .notOk, .resolved, "ba"⟩, ⟨100, .notOk, .resolved, "bat"⟩] 500
    (.ok ⟨[movieA], 1, 1⟩) .resolved
    (searchEffect (.ok ⟨[movieA], 1, 1⟩) .resolved
      { mount (.ok ⟨[], 1, 0⟩) .resolved with
        searchTerm := "bat", debouncedSearchTerm := "bat", debounceTimer := none })
    (by decide) (by decide) (by decide)).2

end Vibeflix
